import Mathlib

/-!
# Verification of the dental-clinic session-brokering backend

Shallow embedding of the core flow of the repository:
`src/jwt_utils.py` (application-token issuance and verification),
`src/routers/api.py` (`login` and `create_session` endpoints),
`src/database_service.py` (`DatabaseService.login`, `DatabaseService.create_session`),
and `src/utils/helpers.py` (`generate_room_name`, `generate_participant_identity`,
`validate_environment`, `generate_livekit_token`, `create_livekit_agent_dispatch`).

External effects (the MySQL table, the LiveKit provider, `uuid.uuid4()`,
SHA-256 hashing, wall-clock time) are modelled as explicit inputs: randomness
is a `Nat` seed, the provider is a `ProviderBehavior` oracle fixing the
outcome of each remote call, and every remote interaction performed by the
code is recorded in an event trace.
-/

namespace DentalClinic

/-- One hexadecimal digit, lowercase, as produced by Python's `uuid.uuid4().hex`. -/
def hexChar (k : Nat) : Char :=
  (List.getD "0123456789abcdef".data k '0')

/-- The 32-character lowercase hex string of a 128-bit uuid value `n`
(big-endian, zero-padded), modelling Python's `uuid.uuid4().hex` with the
random 128-bit value made an explicit argument. -/
def uuidHex (n : Nat) : String :=
  String.mk ((List.range 32).map (fun i => hexChar (n / 16 ^ (31 - i) % 16)))

/-- `generate_room_name` from `src/utils/helpers.py`:
`unique_id = uuid.uuid4().hex[:8]; return f"clinic_session_..."` with the
uuid randomness `rng` explicit. The `clinic_id` parameter is taken but unused,
exactly as in the source. -/
def generate_room_name (clinic_id : String) (rng : Nat) : String :=
  let unique_id := (uuidHex rng).take 8
  "clinic_session_" ++ unique_id

/-- `generate_participant_identity` from `src/utils/helpers.py`. -/
def generate_participant_identity (rng : Nat) : String :=
  "participant_" ++ (uuidHex rng).take 8

/-- Session-id generation from `DatabaseService.create_session`
(`src/database_service.py`): `f"sess_..." uuid.uuid4().hex[:12]`. -/
def mkSessionId (rng : Nat) : String :=
  "sess_" ++ (uuidHex rng).take 12

/-! ## Application tokens (`src/jwt_utils.py`) -/

/-- `EXPIRE_MINUTES = 24 * 60` from `src/jwt_utils.py`. -/
def EXPIRE_MINUTES : Nat := 24 * 60

/-- Claims carried by an application token: the `login` endpoint encodes
`\x7b"email": ..., "id": ...\x7d` and `jwt.encode` adds `exp`. -/
structure TokenPayload where
  email : Option String
  id : Option Nat
  deriving Repr, DecidableEq

/-- A signed application JWT, modelled as its decoded claims plus the secret
it was signed with (`signedWith`); `verify_token` accepts it exactly when the
verifying secret matches and the expiry has not passed, which is the
behaviour of `jwt.encode` / `jwt.decode` with HS256 in `src/jwt_utils.py`. -/
structure AppToken where
  payload : TokenPayload
  exp : Nat
  signedWith : String
  deriving Repr, DecidableEq

/-- `create_access_token` from `src/jwt_utils.py`: copies the claims and sets
`exp = datetime.utcnow() + timedelta(minutes=EXPIRE_MINUTES)`; the current
time `now` (seconds) is an explicit argument. -/
def create_access_token (data : TokenPayload) (secret : String) (now : Nat) : AppToken :=
  { payload := data, exp := now + EXPIRE_MINUTES * 60, signedWith := secret }

/-- `verify_token` from `src/jwt_utils.py`: `jwt.decode` returns the claims
when the signature matches the secret and the token is unexpired; on
`ExpiredSignatureError` or `InvalidTokenError` the function returns `None`. -/
def verify_token (tok : AppToken) (secret : String) (now : Nat) : Option TokenPayload :=
  if tok.signedWith = secret ∧ now < tok.exp then some tok.payload else none

/-! ## Login (`src/routers/api.py` `login`, `DatabaseService.login`) -/

/-- A row of the `user_auth` table: `password` stores the SHA-256 hex digest
of the real password. -/
structure UserAuth where
  id : Nat
  email : String
  password : String
  deriving Repr, DecidableEq

/-- `DatabaseService.login` from `src/database_service.py`: hashes the
presented password and runs
`SELECT id, email FROM user_auth WHERE email = %s AND password = %s`.
The hash function (`hashlib.sha256(...).hexdigest()`) is an explicit
parameter since it is an external primitive. -/
def db_login (hash : String → String) (table : List UserAuth) (email password : String) :
    Option UserAuth :=
  let hashed_password := hash password
  table.find? (fun r => r.email = email && r.password = hashed_password)

/-- The response model `LoginResponse` from `src/models/schemas.py`. -/
structure LoginResponse where
  success : Bool
  message : String
  token : Option AppToken
  user : Option (Nat × String)
  deriving Repr, DecidableEq

/-- The `login` endpoint from `src/routers/api.py`: empty email/password is
rejected up front; otherwise `db.login` decides; on a match a token is
minted over the user's email and id, else the generic
"Invalid email or password" response is returned. -/
def login (hash : String → String) (table : List UserAuth)
    (email password : String) (secret : String) (now : Nat) : LoginResponse :=
  if email = "" ∨ password = "" then
    { success := false, message := "Email and password are required",
      token := none, user := none }
  else
    match db_login hash table email password with
    | some user =>
        { success := true, message := "Login successful",
          token := some (create_access_token
            { email := some user.email, id := some user.id } secret now),
          user := some (user.id, user.email) }
    | none =>
        { success := false, message := "Invalid email or password",
          token := none, user := none }

/-! ## LiveKit token model (`livekit.api` `VideoGrants` / `AccessToken`)

The LiveKit SDK is a third-party dependency; its `VideoGrants` dataclass is
modelled with the same fields and defaults as `livekit.api.VideoGrants`, and
`AccessToken(...).with_identity(...).with_name(...).with_grants(...).to_jwt()`
is modelled as a record of exactly what was embedded and which credentials
signed it. -/

/-- The `livekit.api.VideoGrants` dataclass: boolean permission flags, with
the SDK's defaults. Fields the call sites never set keep their defaults. -/
structure VideoGrants where
  room_create : Bool := false
  room_list : Bool := false
  room_record : Bool := false
  room_admin : Bool := false
  room_join : Bool := false
  room : String := ""
  can_publish : Bool := true
  can_subscribe : Bool := true
  can_publish_data : Bool := true
  can_update_own_metadata : Bool := false
  ingress_admin : Bool := false
  hidden : Bool := false
  recorder : Bool := false
  agent : Bool := false
  deriving Repr, DecidableEq

/-- A signed LiveKit access token: the embedded identity, display name and
grants, plus the API key/secret pair that signed it. -/
structure LkToken where
  identity : String
  displayName : Option String
  grants : VideoGrants
  api_key : String
  api_secret : String
  deriving Repr, DecidableEq

/-- The grant object both call sites construct:
`VideoGrants(room_join=True, room=room_name, can_publish=True,
can_subscribe=True, can_publish_data=True)`. -/
def sessionGrants (room_name : String) : VideoGrants :=
  { room_join := true, room := room_name,
    can_publish := true, can_subscribe := true, can_publish_data := true }

/-- `generate_livekit_token` from `src/utils/helpers.py`: builds an
`AccessToken` with the participant identity and the standard session grants
for `room_name` and signs it with the provider credentials. (The `token_ttl`
argument of the Python function is accepted but never forwarded to the SDK;
it does not affect the token.) -/
def generate_livekit_token (room_name participant_identity : String)
    (_session_id _livekit_url : String)
    (livekit_api_key livekit_api_secret : String) : LkToken :=
  { identity := participant_identity, displayName := none,
    grants := sessionGrants room_name,
    api_key := livekit_api_key, api_secret := livekit_api_secret }

/-! ## Agent dispatch (`src/utils/helpers.py` `create_livekit_agent_dispatch`) -/

/-- One remote interaction performed by the backend, in program order. -/
inductive Event where
  | dbCreateSession (room : String)
  | dbEndSession (session_id : String)
  | listRooms
  | deleteRoom (room : String)
  | sleep (seconds : Nat)
  | createDispatch (agent room metadata : String)
  | listParticipants (room : String)
  | mintToken (identity room : String)
  deriving Repr, DecidableEq

/-- A participant as reported by `lkapi.room.list_participants`. -/
structure Participant where
  identity : String
  kind : String
  deriving Repr, DecidableEq

/-- The provider's acknowledgement of `create_dispatch`: the code first looks
for `dispatch.agent_job.id`, then for `dispatch.agent_dispatch_id`. -/
structure DispatchAck where
  agent_job_id : Option String
  agent_dispatch_id : Option String
  deriving Repr, DecidableEq

/-- Oracle fixing the outcome of each LiveKit API call made during one
dispatch attempt; `Except String` models a raised exception carrying its
message string. -/
structure ProviderBehavior where
  listRoomsResult : Except String (List String)
  deleteResult : Except String Unit
  dispatchResult : Except String DispatchAck
  participantsResult : Except String (List Participant)
  deriving Repr

/-- A Python exception, as the error channel of the embedded functions. -/
inductive PyErr where
  | envErr (missing : List String)
  | httpExc (status : Nat) (detail : String)
  deriving Repr, DecidableEq

/-- `str(e)` for the exceptions the flow raises: `EnvironmentError` carries
its message, and Starlette's `HTTPException.__str__` renders
`f"..status..: ..detail.."`. -/
def strOfErr : PyErr → String
  | .envErr missing =>
      "Missing environment variables: " ++ String.intercalate ", " missing
  | .httpExc status detail => toString status ++ ": " ++ detail

/-- The dictionary returned by `create_livekit_agent_dispatch` on success. -/
structure DispatchResult where
  dispatch_id : String
  room : String
  identity : String
  name : String
  access_token : LkToken
  livekit_url : String
  agent_name : String
  deriving Repr, DecidableEq

/-- Dispatch-id extraction from the provider acknowledgement
(`src/utils/helpers.py`): prefer `dispatch.agent_job.id`, then
`dispatch.agent_dispatch_id`, else keep the locally generated uuid. -/
def ackDispatchId (ack : DispatchAck) (localDispatchId : String) : String :=
  match ack.agent_job_id with
  | some jb => jb
  | none =>
    match ack.agent_dispatch_id with
    | some dd => dd
    | none => localDispatchId

/-- Agent-name resolution (`src/utils/helpers.py`): `if not agent_name:
agent_name = os.getenv("LIVEKIT_AGENT_NAME", "toothfairy-dental-agent-prod")`
— a `None` or empty argument falls back to the environment value, which
itself defaults to the prod agent name. -/
def resolveAgentName (agent_name env_agent_name : Option String) : String :=
  match agent_name with
  | some a =>
      if a = "" then env_agent_name.getD "toothfairy-dental-agent-prod" else a
  | none => env_agent_name.getD "toothfairy-dental-agent-prod"

/-- `create_livekit_agent_dispatch` from `src/utils/helpers.py`, as a pure
function of its arguments, the provider oracle `B`, the locally generated
fallback dispatch id, and the `LIVEKIT_AGENT_NAME` environment value. It
returns the result (or the raised `HTTPException`) together with the trace of
provider interactions:
STEP 1 lists rooms and, when `room_name` is present, deletes it and sleeps
2 s, any failure there being caught and ignored; STEP 2 submits the dispatch,
a failure re-raising out to the outer handler which wraps it in
`HTTPException(500, "Failed to create agent dispatch: ...")`; STEP 3 sleeps
8 s; STEP 4 lists participants, failures again caught; STEP 5 mints the
participant's access token and builds the result dictionary. -/
def create_livekit_agent_dispatch (room_name participant_identity participant_name : String)
    (livekit_api_key livekit_api_secret livekit_url : String)
    (agent_name : Option String) (metadata : Option String)
    (env_agent_name : Option String) (localDispatchId : String)
    (B : ProviderBehavior) : Except PyErr DispatchResult × List Event :=
  let agentName := resolveAgentName agent_name env_agent_name
  let metaStr := metadata.getD ""
  -- STEP 1: check and delete a pre-existing room (failures caught, non-fatal)
  let cleanupTrace : List Event :=
    match B.listRoomsResult with
    | .error _ => [.listRooms]
    | .ok rooms =>
        if room_name ∈ rooms then
          match B.deleteResult with
          | .error _ => [.listRooms, .deleteRoom room_name]
          | .ok _ => [.listRooms, .deleteRoom room_name, .sleep 2]
        else [.listRooms]
  -- STEP 2: dispatch the agent (failure is fatal: re-raised, wrapped as HTTP 500)
  match B.dispatchResult with
  | .error e =>
      (.error (.httpExc 500 ("Failed to create agent dispatch: " ++ e)),
       cleanupTrace ++ [.createDispatch agentName room_name metaStr])
  | .ok ack =>
      let dispatch_id := ackDispatchId ack localDispatchId
      -- STEP 3: fixed 8-second readiness wait; STEP 4: best-effort presence
      -- check (its outcome only affects logging); STEP 5: mint the token.
      let token : LkToken :=
        { identity := participant_identity, displayName := some participant_name,
          grants := sessionGrants room_name,
          api_key := livekit_api_key, api_secret := livekit_api_secret }
      (.ok { dispatch_id := dispatch_id, room := room_name,
             identity := participant_identity, name := participant_name,
             access_token := token, livekit_url := livekit_url,
             agent_name := agentName },
       cleanupTrace ++ [.createDispatch agentName room_name metaStr,
                        .sleep 8, .listParticipants room_name,
                        .mintToken participant_identity room_name])

/-! ## Session orchestration (`src/routers/api.py` `create_session`) -/

/-- The environment variables the flow reads (`os.getenv`); `none` models an
unset variable and, like Python's falsiness check, the empty string also
counts as missing. `jwt_secret_key` is `JWT_SECRET_KEY`, required at import
time by `src/jwt_utils.py`. -/
structure Env where
  livekit_url : Option String
  livekit_api_key : Option String
  livekit_api_secret : Option String
  db_host : Option String
  db_user : Option String
  db_name : Option String
  livekit_agent_name : Option String
  jwt_secret_key : String
  deriving Repr

/-- Python truthiness of `os.getenv(var)`: set and non-empty. -/
def envSet : Option String → Bool
  | none => false
  | some s => !(s = "")

/-- `validate_environment` from `src/utils/helpers.py`: collects the unset
required variables in order and raises `EnvironmentError` when any is
missing; returns `none` on success. -/
def validate_environment (env : Env) : Option PyErr :=
  let missing :=
    (if envSet env.livekit_url then [] else ["LIVEKIT_URL"]) ++
    (if envSet env.livekit_api_key then [] else ["LIVEKIT_API_KEY"]) ++
    (if envSet env.livekit_api_secret then [] else ["LIVEKIT_API_SECRET"]) ++
    (if envSet env.db_host then [] else ["DB_HOST"]) ++
    (if envSet env.db_user then [] else ["DB_USER"]) ++
    (if envSet env.db_name then [] else ["DB_NAME"])
  if missing = [] then none else some (.envErr missing)

/-- A row of the `sessions` table, as written by
`DatabaseService.create_session` (`INSERT INTO sessions (session_id,
room_name, start_time, status) VALUES (..., 'active')`). -/
structure SessionRecord where
  session_id : String
  room_name : String
  status : String
  deriving Repr, DecidableEq

/-- `DatabaseService.create_session` from `src/database_service.py`: makes a
fresh `sess_`-prefixed id and inserts a row with status `'active'`,
returning the id; the table is threaded explicitly. -/
def db_create_session (db : List SessionRecord) (room_name : String) (rng : Nat) :
    String × List SessionRecord :=
  let session_id := mkSessionId rng
  (session_id, db ++ [{ session_id := session_id, room_name := room_name, status := "active" }])

/-- Serialized dispatch metadata, standing for Python's `str()` of the
`dispatch_metadata` dict built in `create_session` (its exact rendering is
irrelevant to the flow; only the fields it carries matter). -/
def pyDictStr (session_id : String) (user_id : Option Nat) (user_email : String) : String :=
  "session_id: " ++ session_id ++ ", user_id: " ++
    (match user_id with | some n => toString n | none => "None") ++
    ", user_email: " ++ user_email

/-- The `data` dictionary assembled by `create_session` on success
(`response_data` in `src/routers/api.py`). -/
structure ResponseData where
  user_id : Option Nat
  user_email : String
  session_id : String
  livekit_url : String
  room_name : String
  participant_identity : String
  participant_name : String
  agent_name : String
  dispatch_id : String
  access_token : LkToken
  deriving Repr, DecidableEq

/-- The response model `SessionCreateResponse` from `src/models/schemas.py`. -/
structure SessionCreateResponse where
  success : Bool
  message : String
  data : Option ResponseData
  error : Option String
  deriving Repr, DecidableEq

/-- The body of the `create_session` endpoint (`src/routers/api.py`), run
after the bearer token has been verified: validate configuration, generate
room name and participant identity, insert the session row, delegate to
`create_livekit_agent_dispatch`, and assemble the response. An
`EnvironmentError` is turned into `HTTPException(500, "Configuration error:
...")`; any other exception — including the `HTTPException` raised by a
failed dispatch — is wrapped as `HTTPException(500, "Failed to create
session: " ++ str(e))`. Returns the result, the trace of
persistence/provider calls, and the final `sessions` table. -/
def create_session_body (env : Env) (payload : TokenPayload)
    (rngRoom rngPart rngSess : Nat) (localDispatchId : String)
    (B : ProviderBehavior) (db : List SessionRecord) :
    Except PyErr SessionCreateResponse × List Event × List SessionRecord :=
  match validate_environment env with
  | some e =>
      (.error (.httpExc 500 ("Configuration error: " ++ strOfErr e)), [], db)
  | none =>
    let room_name := generate_room_name "toothfairy" rngRoom
    let participant_identity := generate_participant_identity rngPart
    let user_email := payload.email.getD "unknown"
    let user_id := payload.id
    let (session_id, db') := db_create_session db room_name rngSess
    let livekit_url := env.livekit_url.getD ""
    let livekit_api_key := env.livekit_api_key.getD ""
    let livekit_api_secret := env.livekit_api_secret.getD ""
    let agentName := env.livekit_agent_name.getD "toothfairy-dental-agent"
    let metadata := pyDictStr session_id user_id user_email
    let dispatchRun := create_livekit_agent_dispatch room_name participant_identity
      user_email livekit_api_key livekit_api_secret livekit_url
      (some agentName) (some metadata) env.livekit_agent_name localDispatchId B
    match dispatchRun.1 with
    | .error e =>
        (.error (.httpExc 500 ("Failed to create session: " ++ strOfErr e)),
         .dbCreateSession room_name :: dispatchRun.2, db')
    | .ok d =>
        let response_data : ResponseData :=
          { user_id := user_id, user_email := user_email,
            session_id := session_id, livekit_url := livekit_url,
            room_name := room_name, participant_identity := participant_identity,
            participant_name := user_email, agent_name := agentName,
            dispatch_id := d.dispatch_id, access_token := d.access_token }
        (.ok { success := true,
               message := "Session created successfully with agent dispatch",
               data := some response_data, error := none },
         .dbCreateSession room_name :: dispatchRun.2, db')

/-- The full `POST /api/v1/token` endpoint: the `verify_jwt_token` dependency
(`src/utils/helpers.py`) verifies the bearer token first and raises
`HTTPException(401, "Invalid or expired token")` on failure, before any of
the body runs; otherwise the body executes with the decoded payload. -/
def create_session_endpoint (env : Env) (tok : AppToken) (now : Nat)
    (rngRoom rngPart rngSess : Nat) (localDispatchId : String)
    (B : ProviderBehavior) (db : List SessionRecord) :
    Except PyErr SessionCreateResponse × List Event × List SessionRecord :=
  match verify_token tok env.jwt_secret_key now with
  | none => (.error (.httpExc 401 "Invalid or expired token"), [], db)
  | some payload =>
      create_session_body env payload rngRoom rngPart rngSess localDispatchId B db

/-! ## Concrete fixtures (used by witnesses and counterexamples) -/

/-- Recognizer for room-deletion events. -/
def isDeleteEvent : Event → Bool
  | .deleteRoom _ => true
  | _ => false

/-- Substring test: `sub` occurs contiguously inside `s`. -/
def containsStr (s sub : String) : Bool :=
  (List.range (s.data.length + 1)).any (fun i => sub.data.isPrefixOf (s.data.drop i))

/-- A fully configured environment. -/
def envOK : Env :=
  { livekit_url := some "wss://example.livekit.cloud",
    livekit_api_key := some "APIkey123",
    livekit_api_secret := some "APIsecret456",
    db_host := some "localhost", db_user := some "root",
    db_name := some "dental_clinic_agent",
    livekit_agent_name := none,
    jwt_secret_key := "jwt-test-secret" }

/-- A provider on which every call succeeds: no pre-existing rooms, an
acknowledged dispatch carrying job id `AJ_123`, one agent participant. -/
def provOK : ProviderBehavior :=
  { listRoomsResult := .ok [], deleteResult := .ok (),
    dispatchResult := .ok { agent_job_id := some "AJ_123", agent_dispatch_id := none },
    participantsResult := .ok [{ identity := "agent-xyz", kind := "agent" }] }

/-- A provider whose dispatch submission fails with message `boom`. -/
def provDispatchFails : ProviderBehavior :=
  { listRoomsResult := .ok [], deleteResult := .ok (),
    dispatchResult := .error "boom",
    participantsResult := .ok [] }

/-- A provider whose dispatch submission fails with a Twirp-style message. -/
def provDispatchRejected : ProviderBehavior :=
  { listRoomsResult := .ok [], deleteResult := .ok (),
    dispatchResult := .error "TwirpError= dispatch rejected",
    participantsResult := .ok [] }

/-- The dispatch result of a successful run against `provOK` for room
`room-1`, participant `user-1` / `Doc`, credentials `k1`/`s1`. -/
def dispatchOKResult : DispatchResult :=
  { dispatch_id := "AJ_123", room := "room-1", identity := "user-1",
    name := "Doc",
    access_token := { identity := "user-1", displayName := some "Doc",
                      grants := sessionGrants "room-1",
                      api_key := "k1", api_secret := "s1" },
    livekit_url := "wss://x", agent_name := "toothfairy-dental-agent-prod" }

/-- The event trace of that same successful run. -/
def okTrace : List Event :=
  [.listRooms, .createDispatch "toothfairy-dental-agent-prod" "room-1" "",
   .sleep 8, .listParticipants "room-1", .mintToken "user-1" "room-1"]

/-- An application token signed with `envOK`'s secret that expires at
time 500. -/
def expiredToken : AppToken :=
  { payload := { email := some "doc@example.com", id := some 7 },
    exp := 500, signedWith := "jwt-test-secret" }

/-- The token payload of a logged-in test user. -/
def payloadDoc : TokenPayload := { email := some "doc@example.com", id := some 7 }

/-- `envOK` with different provider credentials and a different application
signing secret. -/
def envAlt : Env :=
  { envOK with livekit_api_key := some "otherkey",
               livekit_api_secret := some "othersecret",
               jwt_secret_key := "otherjwt" }

/-- The response data of a successful run of `create_session_body` with
`payloadDoc`, all randomness 0, acknowledgement `AJ_123`, and the given
provider credentials. -/
def dataRun (key secret : String) : ResponseData :=
  { user_id := some 7, user_email := "doc@example.com",
    session_id := "sess_000000000000",
    livekit_url := "wss://example.livekit.cloud",
    room_name := "clinic_session_00000000",
    participant_identity := "participant_00000000",
    participant_name := "doc@example.com",
    agent_name := "toothfairy-dental-agent",
    dispatch_id := "AJ_123",
    access_token := { identity := "participant_00000000",
                      displayName := some "doc@example.com",
                      grants := sessionGrants "clinic_session_00000000",
                      api_key := key, api_secret := secret } }

/-- The full successful response around `dataRun`. -/
def respRun (key secret : String) : SessionCreateResponse :=
  { success := true,
    message := "Session created successfully with agent dispatch",
    data := some (dataRun key secret), error := none }

/-! ## Helper lemmas -/

/-- Every character `hexChar` produces is a lowercase hexadecimal digit. -/
lemma hexChar_mem_hexDigits (k : Nat) : hexChar k ∈ "0123456789abcdef".data := by
  unfold hexChar
  rcases Nat.lt_or_ge k 16 with h | h
  · interval_cases k <;> decide
  · rw [List.getD_eq_default]
    · decide
    · simpa using h

/-- A list is a (boolean) prefix of itself. -/
lemma isPrefixOf_self (l : List Char) : l.isPrefixOf l = true := by
  induction l with
  | nil => rfl
  | cons a t ih => simp [List.isPrefixOf, ih]

/-- Appending `e` on the right makes `e` a substring of the result. -/
lemma containsStr_append_right (a e : String) : containsStr (a ++ e) e = true := by
  unfold containsStr
  rw [List.any_eq_true]
  refine ⟨a.data.length, ?_, ?_⟩
  · rw [List.mem_range, String.data_append, List.length_append]
    omega
  · rw [String.data_append, List.drop_left]
    exact isPrefixOf_self _

/-- On a failed dispatch submission, `create_livekit_agent_dispatch` raises
`HTTPException(500, "Failed to create agent dispatch: ...")`. -/
lemma dispatch_error_shape (room pid pname key secret url : String)
    (an md ea : Option String) (lid : String) (B : ProviderBehavior) (e : String)
    (hB : B.dispatchResult = .error e) :
    (create_livekit_agent_dispatch room pid pname key secret url an md ea lid B).1 =
      .error (.httpExc 500 ("Failed to create agent dispatch: " ++ e)) := by
  simp [create_livekit_agent_dispatch, hB]

/-- On a successful dispatch submission, the result value of
`create_livekit_agent_dispatch` is fully determined by the arguments and the
acknowledgement. -/
lemma dispatch_ok_shape (room pid pname key secret url : String)
    (an md ea : Option String) (lid : String) (B : ProviderBehavior) (ack : DispatchAck)
    (hB : B.dispatchResult = .ok ack) :
    (create_livekit_agent_dispatch room pid pname key secret url an md ea lid B).1 =
      .ok { dispatch_id := ackDispatchId ack lid,
            room := room, identity := pid, name := pname,
            access_token := { identity := pid, displayName := some pname,
                              grants := sessionGrants room, api_key := key,
                              api_secret := secret },
            livekit_url := url,
            agent_name := resolveAgentName an ea } := by
  simp [create_livekit_agent_dispatch, hB]

/-- The dispatcher never writes to the sessions table: its trace contains no
`dbEndSession` event. -/
lemma dispatch_trace_no_dbEnd (room pid pname key secret url : String)
    (an md ea : Option String) (lid : String) (B : ProviderBehavior) (sid : String) :
    Event.dbEndSession sid ∉
      (create_livekit_agent_dispatch room pid pname key secret url an md ea lid B).2 := by
  cases hL : B.listRoomsResult with
  | error err =>
      cases hB : B.dispatchResult <;>
        simp [create_livekit_agent_dispatch, hL, hB]
  | ok rooms =>
      by_cases hmem : room ∈ rooms
      · cases hD : B.deleteResult <;> cases hB : B.dispatchResult <;>
          simp [create_livekit_agent_dispatch, hL, hD, hB, hmem]
      · cases hB : B.dispatchResult <;>
          simp [create_livekit_agent_dispatch, hL, hB, hmem]

/-- On a successful run, the response of `create_session_body` is fully
determined by the environment, payload, randomness and acknowledgement. -/
lemma create_session_body_ok_shape (env : Env) (payload : TokenPayload)
    (rr rp rs : Nat) (lid : String) (B : ProviderBehavior) (db : List SessionRecord)
    (r : SessionCreateResponse)
    (h : (create_session_body env payload rr rp rs lid B db).1 = .ok r) :
    ∃ ack, B.dispatchResult = .ok ack ∧
      r = { success := true,
            message := "Session created successfully with agent dispatch",
            data := some
              { user_id := payload.id, user_email := payload.email.getD "unknown",
                session_id := mkSessionId rs,
                livekit_url := env.livekit_url.getD "",
                room_name := generate_room_name "toothfairy" rr,
                participant_identity := generate_participant_identity rp,
                participant_name := payload.email.getD "unknown",
                agent_name := env.livekit_agent_name.getD "toothfairy-dental-agent",
                dispatch_id := ackDispatchId ack lid,
                access_token := { identity := generate_participant_identity rp,
                                  displayName := some (payload.email.getD "unknown"),
                                  grants := sessionGrants (generate_room_name "toothfairy" rr),
                                  api_key := env.livekit_api_key.getD "",
                                  api_secret := env.livekit_api_secret.getD "" } },
            error := none } := by
  cases hv : validate_environment env with
  | some e => simp [create_session_body, hv] at h
  | none =>
    cases hB : B.dispatchResult with
    | error e =>
        have hd := dispatch_error_shape (generate_room_name "toothfairy" rr)
          (generate_participant_identity rp) (payload.email.getD "unknown")
          (env.livekit_api_key.getD "") (env.livekit_api_secret.getD "")
          (env.livekit_url.getD "")
          (some (env.livekit_agent_name.getD "toothfairy-dental-agent"))
          (some (pyDictStr (mkSessionId rs) payload.id (payload.email.getD "unknown")))
          env.livekit_agent_name lid B e hB
        simp [create_session_body, hv, db_create_session, hd] at h
    | ok ack =>
        refine ⟨ack, rfl, ?_⟩
        have hd := dispatch_ok_shape (generate_room_name "toothfairy" rr)
          (generate_participant_identity rp) (payload.email.getD "unknown")
          (env.livekit_api_key.getD "") (env.livekit_api_secret.getD "")
          (env.livekit_url.getD "")
          (some (env.livekit_agent_name.getD "toothfairy-dental-agent"))
          (some (pyDictStr (mkSessionId rs) payload.id (payload.email.getD "unknown")))
          env.livekit_agent_name lid B ack hB
        simp only [create_session_body, hv, db_create_session, hd,
          Except.ok.injEq] at h
        exact h.symm

/-! ## Theorems -/

/-- C10: `generate_room_name` ignores its `clinic_id` argument entirely —
for the same uuid randomness any two clinic ids give the same room name, and
the result is the constant prefix `"clinic_session_"` followed by exactly 8
lowercase hexadecimal characters, so the clinic id never flows into the
room name. -/
theorem c10_room_name_ignores_clinic_id (c1 c2 : String) (rng : Nat) :
    generate_room_name c1 rng = generate_room_name c2 rng ∧
    ∃ suffix : List Char,
      (generate_room_name c1 rng).data = "clinic_session_".data ++ suffix ∧
      suffix.length = 8 ∧
      ∀ ch ∈ suffix, ch ∈ "0123456789abcdef".data := by
  refine ⟨rfl, ((uuidHex rng).take 8).data, ?_, ?_, ?_⟩
  · simp [generate_room_name]
  · simp [uuidHex]
  · intro ch hch
    simp only [String.data_take, uuidHex] at hch
    obtain ⟨i, _, rfl⟩ := List.mem_map.mp (List.mem_of_mem_take hch)
    exact hexChar_mem_hexDigits _

/-- C7: when the presented credentials match a stored hashed credential,
`login` issues a token that `verify_token` accepts (at issuance time, and at
any time before the expiry), and the embedded expiry is exactly 24 hours
after the issuance time. -/
theorem c7_login_token_valid_24h (hash : String → String) (table : List UserAuth)
    (email password secret : String) (now : Nat) (u : UserAuth)
    (hemail : email ≠ "") (hpw : password ≠ "")
    (hmatch : db_login hash table email password = some u) :
    ∃ tok : AppToken,
      (login hash table email password secret now).success = true ∧
      (login hash table email password secret now).token = some tok ∧
      tok.exp = now + 24 * 60 * 60 ∧
      verify_token tok secret now = some tok.payload ∧
      ∀ t : Nat, t < now + 24 * 60 * 60 → verify_token tok secret t = some tok.payload := by
  refine ⟨create_access_token { email := some u.email, id := some u.id } secret now,
    ?_, ?_, ?_, ?_, ?_⟩
  · simp [login, hemail, hpw, hmatch]
  · simp [login, hemail, hpw, hmatch]
  · simp [create_access_token, EXPIRE_MINUTES]
  · simp [verify_token, create_access_token, EXPIRE_MINUTES]
  · intro t ht
    have hc : (create_access_token { email := some u.email, id := some u.id } secret now).signedWith
          = secret ∧
        t < (create_access_token { email := some u.email, id := some u.id } secret now).exp := by
      refine ⟨rfl, ?_⟩
      simp only [create_access_token, EXPIRE_MINUTES]
      omega
    simp [verify_token, hc.1, hc.2]

/-- C7 witness: a concrete one-row table where the credentials match. -/
theorem c7_login_token_valid_24h_witness :
    ∃ tok : AppToken,
      (login (fun s => s ++ "#sha") [⟨7, "doc@example.com", "clinicpass#sha"⟩]
        "doc@example.com" "clinicpass" "appsecret" 1000).success = true ∧
      (login (fun s => s ++ "#sha") [⟨7, "doc@example.com", "clinicpass#sha"⟩]
        "doc@example.com" "clinicpass" "appsecret" 1000).token = some tok ∧
      tok.exp = 1000 + 24 * 60 * 60 ∧
      verify_token tok "appsecret" 1000 = some tok.payload ∧
      ∀ t : Nat, t < 1000 + 24 * 60 * 60 → verify_token tok "appsecret" t = some tok.payload :=
  c7_login_token_valid_24h (fun s => s ++ "#sha")
    [⟨7, "doc@example.com", "clinicpass#sha"⟩]
    "doc@example.com" "clinicpass" "appsecret" 1000
    ⟨7, "doc@example.com", "clinicpass#sha"⟩
    (by decide) (by decide) (by decide)

/-- C8: for invalid credentials the `login` response is success=false with
the generic message, no token and no user — and the response is literally
identical whether the email is absent from the table or present with a
wrong password (two-run indistinguishability). -/
theorem c8_login_failure_indistinguishable (hash : String → String)
    (table : List UserAuth) (e1 p1 e2 p2 secret : String) (now : Nat)
    (he1 : e1 ≠ "") (hp1 : p1 ≠ "") (he2 : e2 ≠ "") (hp2 : p2 ≠ "")
    (habsent : ∀ r ∈ table, r.email ≠ e1)
    (hpresent : ∃ r ∈ table, r.email = e2)
    (hwrong : ∀ r ∈ table, r.email = e2 → r.password ≠ hash p2) :
    login hash table e1 p1 secret now = login hash table e2 p2 secret now ∧
    login hash table e1 p1 secret now =
      { success := false, message := "Invalid email or password",
        token := none, user := none } := by
  have h1 : db_login hash table e1 p1 = none := by
    apply List.find?_eq_none.mpr
    intro r hr
    simp only [Bool.and_eq_true, decide_eq_true_eq, not_and]
    intro hre
    exact absurd hre (habsent r hr)
  have h2 : db_login hash table e2 p2 = none := by
    apply List.find?_eq_none.mpr
    intro r hr
    simp only [Bool.and_eq_true, decide_eq_true_eq, not_and]
    intro hre
    exact hwrong r hr hre
  constructor
  · simp [login, he1, hp1, he2, hp2, h1, h2]
  · simp [login, he1, hp1, h1]

/-- C8 witness: a concrete table containing `doc@example.com` only; run one
uses an unknown email, run two the known email with a wrong password. -/
theorem c8_login_failure_indistinguishable_witness :
    login (fun s => s ++ "#sha") [⟨7, "doc@example.com", "clinicpass#sha"⟩]
      "ghost@example.com" "whatever1" "appsecret" 1000 =
    login (fun s => s ++ "#sha") [⟨7, "doc@example.com", "clinicpass#sha"⟩]
      "doc@example.com" "wrongpass" "appsecret" 1000 ∧
    login (fun s => s ++ "#sha") [⟨7, "doc@example.com", "clinicpass#sha"⟩]
      "ghost@example.com" "whatever1" "appsecret" 1000 =
      { success := false, message := "Invalid email or password",
        token := none, user := none } :=
  c8_login_failure_indistinguishable (fun s => s ++ "#sha")
    [⟨7, "doc@example.com", "clinicpass#sha"⟩]
    "ghost@example.com" "whatever1" "doc@example.com" "wrongpass" "appsecret" 1000
    (by decide) (by decide) (by decide) (by decide)
    (by decide)
    ⟨⟨7, "doc@example.com", "clinicpass#sha"⟩, by decide, by decide⟩
    (by decide)

/-- C5: presenting an expired (or otherwise invalid — wrong-signature)
application token to the `create_session` endpoint yields the 401
`"Invalid or expired token"` error, the event trace is empty (no persistence
call, no provider call), and the sessions table is unchanged. -/
theorem c5_invalid_token_rejected_before_any_call (env : Env) (tok : AppToken)
    (now rngRoom rngPart rngSess : Nat) (localDispatchId : String)
    (B : ProviderBehavior) (db : List SessionRecord)
    (hbad : tok.exp ≤ now ∨ tok.signedWith ≠ env.jwt_secret_key) :
    create_session_endpoint env tok now rngRoom rngPart rngSess localDispatchId B db =
      (.error (.httpExc 401 "Invalid or expired token"), [], db) := by
  have hv : verify_token tok env.jwt_secret_key now = none := by
    unfold verify_token
    rw [if_neg]
    rcases hbad with h | h
    · exact fun hc => absurd hc.2 (by omega)
    · exact fun hc => absurd hc.1 h
  simp [create_session_endpoint, hv]

/-- C5 witness: an expired token (exp 500, presented at time 1000) against a
fully configured environment is rejected with 401 and no calls are made. -/
theorem c5_invalid_token_rejected_before_any_call_witness :
    create_session_endpoint envOK expiredToken 1000 0 0 0 "local-1" provOK [] =
      (.error (.httpExc 401 "Invalid or expired token"), [], []) :=
  c5_invalid_token_rejected_before_any_call envOK expiredToken 1000 0 0 0
    "local-1" provOK [] (Or.inl (by decide))

/-- C1: every successful `create_livekit_agent_dispatch` call returns a
token whose grants are exactly \x7bjoin, publish, subscribe, publish-data\x7d
scoped to the one dispatched room, with every other permission flag false;
and `generate_livekit_token` builds exactly the same grant set. -/
theorem c1_join_token_grants_exact (room_name participant_identity participant_name : String)
    (api_key api_secret url : String) (agent_name metadata env_agent : Option String)
    (localId : String) (B : ProviderBehavior) (d : DispatchResult) (tr : List Event)
    (h : create_livekit_agent_dispatch room_name participant_identity participant_name
      api_key api_secret url agent_name metadata env_agent localId B = (.ok d, tr)) :
    d.access_token.grants =
      { room_create := false, room_list := false, room_record := false,
        room_admin := false, room_join := true, room := room_name,
        can_publish := true, can_subscribe := true, can_publish_data := true,
        can_update_own_metadata := false, ingress_admin := false,
        hidden := false, recorder := false, agent := false } ∧
    ∀ sid lurl : String,
      (generate_livekit_token room_name participant_identity sid lurl
        api_key api_secret).grants =
      { room_create := false, room_list := false, room_record := false,
        room_admin := false, room_join := true, room := room_name,
        can_publish := true, can_subscribe := true, can_publish_data := true,
        can_update_own_metadata := false, ingress_admin := false,
        hidden := false, recorder := false, agent := false } := by
  constructor
  · cases hB : B.dispatchResult with
    | error e =>
        simp only [create_livekit_agent_dispatch, hB, Prod.mk.injEq] at h
        exact absurd h.1 (by simp)
    | ok ack =>
        simp only [create_livekit_agent_dispatch, hB, Prod.mk.injEq,
          Except.ok.injEq] at h
        rw [← h.1]
        simp [sessionGrants]
  · intro sid lurl
    simp [generate_livekit_token, sessionGrants]

/-- C1 witness: the successful run against `provOK` yields exactly the
four-flag grant for room `room-1`. -/
theorem c1_join_token_grants_exact_witness :
    create_livekit_agent_dispatch "room-1" "user-1" "Doc" "k1" "s1" "wss://x"
      none none none "local-1" provOK = (.ok dispatchOKResult, okTrace) ∧
    dispatchOKResult.access_token.grants =
      { room_create := false, room_list := false, room_record := false,
        room_admin := false, room_join := true, room := "room-1",
        can_publish := true, can_subscribe := true, can_publish_data := true,
        can_update_own_metadata := false, ingress_admin := false,
        hidden := false, recorder := false, agent := false } :=
  ⟨rfl, (c1_join_token_grants_exact "room-1" "user-1" "Doc" "k1" "s1" "wss://x"
    none none none "local-1" provOK dispatchOKResult okTrace rfl).1⟩

/-- C4: whenever the dispatcher returns a result carrying a media-join
token, the dispatch submission succeeded and the trace ends with the
submission, the 8-second readiness wait, the presence check, and only then
the token minting; and whenever the submission fails the dispatcher returns
an HTTP-500 error instead of any token. -/
theorem c4_token_minted_after_readiness_wait
    (room_name participant_identity participant_name : String)
    (api_key api_secret url : String) (agent_name metadata env_agent : Option String)
    (localId : String) (B : ProviderBehavior) :
    (∀ d tr, create_livekit_agent_dispatch room_name participant_identity participant_name
        api_key api_secret url agent_name metadata env_agent localId B = (.ok d, tr) →
      B.dispatchResult.isOk = true ∧
      ∃ a m pre, tr = pre ++ [.createDispatch a room_name m, .sleep 8,
        .listParticipants room_name, .mintToken participant_identity room_name]) ∧
    (∀ e, B.dispatchResult = .error e →
      (create_livekit_agent_dispatch room_name participant_identity participant_name
        api_key api_secret url agent_name metadata env_agent localId B).1 =
      .error (.httpExc 500 ("Failed to create agent dispatch: " ++ e))) := by
  constructor
  · intro d tr h
    cases hB : B.dispatchResult with
    | error e =>
        simp only [create_livekit_agent_dispatch, hB, Prod.mk.injEq] at h
        exact absurd h.1 (by simp)
    | ok ack =>
        refine ⟨by rfl, ?_⟩
        simp only [create_livekit_agent_dispatch, hB, Prod.mk.injEq,
          Except.ok.injEq] at h
        exact ⟨_, _, _, h.2.symm⟩
  · intro e he
    simp [create_livekit_agent_dispatch, he]

/-- C4 witness: the successful concrete run satisfies the submission-success
conclusion, and the failing provider yields the 500 error with no token. -/
theorem c4_token_minted_after_readiness_wait_witness :
    provOK.dispatchResult.isOk = true ∧
    (create_livekit_agent_dispatch "room-1" "user-1" "Doc" "k1" "s1" "wss://x"
      none none none "local-1" provDispatchFails).1 =
      .error (.httpExc 500 "Failed to create agent dispatch: boom") :=
  ⟨((c4_token_minted_after_readiness_wait "room-1" "user-1" "Doc" "k1" "s1" "wss://x"
      none none none "local-1" provOK).1 dispatchOKResult okTrace rfl).1,
   (c4_token_minted_after_readiness_wait "room-1" "user-1" "Doc" "k1" "s1" "wss://x"
      none none none "local-1" provDispatchFails).2 "boom" rfl⟩

/-- C6: room cleanup — when the provider reports the room as pre-existing,
exactly one delete request is issued, and when the delete succeeds a
2-second wait immediately follows it before anything else; when the room is
absent there is no delete and no 2-second wait; and list/delete outcomes
never fail the dispatch operation (a successful submission still yields a
successful result). -/
theorem c6_room_cleanup_once_nonfatal
    (room_name participant_identity participant_name : String)
    (api_key api_secret url : String) (agent_name metadata env_agent : Option String)
    (localId : String) (B : ProviderBehavior) :
    (∀ rooms, B.listRoomsResult = .ok rooms → room_name ∈ rooms →
      ((create_livekit_agent_dispatch room_name participant_identity participant_name
        api_key api_secret url agent_name metadata env_agent localId B).2.countP
          isDeleteEvent) = 1 ∧
      (B.deleteResult = .ok () → ∃ rest,
        (create_livekit_agent_dispatch room_name participant_identity participant_name
          api_key api_secret url agent_name metadata env_agent localId B).2 =
        .listRooms :: .deleteRoom room_name :: .sleep 2 :: rest)) ∧
    (∀ rooms, B.listRoomsResult = .ok rooms → room_name ∉ rooms →
      (∀ r, Event.deleteRoom r ∉
        (create_livekit_agent_dispatch room_name participant_identity participant_name
          api_key api_secret url agent_name metadata env_agent localId B).2) ∧
      Event.sleep 2 ∉
        (create_livekit_agent_dispatch room_name participant_identity participant_name
          api_key api_secret url agent_name metadata env_agent localId B).2) ∧
    (∀ ack, B.dispatchResult = .ok ack →
      (create_livekit_agent_dispatch room_name participant_identity participant_name
        api_key api_secret url agent_name metadata env_agent localId B).1.isOk = true) := by
  refine ⟨?_, ?_, ?_⟩
  · intro rooms hL hmem
    constructor
    · cases hD : B.deleteResult <;> cases hB : B.dispatchResult <;>
        simp [create_livekit_agent_dispatch, hL, hD, hB, hmem,
          List.countP_cons, List.countP_append, isDeleteEvent]
    · intro hD
      cases hB : B.dispatchResult <;>
        simp [create_livekit_agent_dispatch, hL, hD, hB, hmem]
  · intro rooms hL hmem
    constructor
    · intro r
      cases hB : B.dispatchResult <;>
        simp [create_livekit_agent_dispatch, hL, hB, hmem]
    · cases hB : B.dispatchResult <;>
        simp [create_livekit_agent_dispatch, hL, hB, hmem]
  · intro ack hB
    cases hL : B.listRoomsResult <;> cases hD : B.deleteResult <;>
      simp [create_livekit_agent_dispatch, hL, hD, hB, Except.isOk, Except.toBool]

/-- C6 witness: a provider reporting `room-1` as pre-existing, with delete
succeeding and dispatch succeeding: one delete, then the 2-second settle
wait, and an overall success. -/
theorem c6_room_cleanup_once_nonfatal_witness :
    ((create_livekit_agent_dispatch "room-1" "user-1" "Doc" "k1" "s1" "wss://x"
        none none none "local-1"
        { provOK with listRoomsResult := .ok ["room-1"] }).2.countP
      isDeleteEvent) = 1 ∧
    (create_livekit_agent_dispatch "room-1" "user-1" "Doc" "k1" "s1" "wss://x"
        none none none "local-1"
        { provOK with listRoomsResult := .ok ["room-1"] }).1.isOk = true :=
  ⟨((c6_room_cleanup_once_nonfatal "room-1" "user-1" "Doc" "k1" "s1" "wss://x"
      none none none "local-1"
      { provOK with listRoomsResult := .ok ["room-1"] }).1 ["room-1"] rfl
      (by decide)).1,
   (c6_room_cleanup_once_nonfatal "room-1" "user-1" "Doc" "k1" "s1" "wss://x"
      none none none "local-1"
      { provOK with listRoomsResult := .ok ["room-1"] }).2.2
      { agent_job_id := some "AJ_123", agent_dispatch_id := none } rfl⟩

/-- C2 counterexample: with a fully configured environment and a provider
whose dispatch submission fails (`boom`), the caller gets the 500 error but
the session row inserted in step 3 stays in the table with status
`"active"`, and the whole trace shows no dispatch-record write and no
compensating action — the session IS left orphaned, contradicting the
claim's rollback clause. -/
theorem c2_counterexample_orphaned_active_session :
    (create_session_body envOK payloadDoc 0 0 0 "local-1" provDispatchFails []).1 =
      .error (.httpExc 500
        "Failed to create session: 500: Failed to create agent dispatch: boom") ∧
    (create_session_body envOK payloadDoc 0 0 0 "local-1" provDispatchFails []).2.2 =
      [{ session_id := "sess_000000000000",
         room_name := "clinic_session_00000000", status := "active" }] ∧
    (create_session_body envOK payloadDoc 0 0 0 "local-1" provDispatchFails []).2.1 =
      [.dbCreateSession "clinic_session_00000000", .listRooms,
       .createDispatch "toothfairy-dental-agent" "clinic_session_00000000"
         "session_id: sess_000000000000, user_id: 7, user_email: doc@example.com"] :=
  ⟨rfl, rfl, rfl⟩

/-- C2 (amended): when the dispatch submission fails, `create_session`
returns a 500-equivalent failure, but the session record created in step 3
remains in the table in `'active'` status with no corresponding dispatch
record and no compensating `end_session` call — it is left orphaned. -/
theorem c2_dispatch_failure_orphans_active_session (env : Env) (payload : TokenPayload)
    (rr rp rs : Nat) (lid : String) (B : ProviderBehavior) (db : List SessionRecord)
    (e : String) (hv : validate_environment env = none)
    (hB : B.dispatchResult = .error e) :
    (create_session_body env payload rr rp rs lid B db).1 =
      .error (.httpExc 500 ("Failed to create session: " ++
        strOfErr (.httpExc 500 ("Failed to create agent dispatch: " ++ e)))) ∧
    (create_session_body env payload rr rp rs lid B db).2.2 =
      db ++ [{ session_id := mkSessionId rs,
               room_name := generate_room_name "toothfairy" rr,
               status := "active" }] ∧
    ∀ sid, Event.dbEndSession sid ∉
      (create_session_body env payload rr rp rs lid B db).2.1 := by
  have hd := dispatch_error_shape (generate_room_name "toothfairy" rr)
    (generate_participant_identity rp) (payload.email.getD "unknown")
    (env.livekit_api_key.getD "") (env.livekit_api_secret.getD "")
    (env.livekit_url.getD "")
    (some (env.livekit_agent_name.getD "toothfairy-dental-agent"))
    (some (pyDictStr (mkSessionId rs) payload.id (payload.email.getD "unknown")))
    env.livekit_agent_name lid B e hB
  refine ⟨?_, ?_, ?_⟩
  · simp [create_session_body, hv, db_create_session, hd]
  · simp [create_session_body, hv, db_create_session, hd]
  · intro sid
    simp only [create_session_body, hv, db_create_session, hd, List.mem_cons, not_or]
    refine ⟨by simp, ?_⟩
    apply dispatch_trace_no_dbEnd

/-- C2 witness: the amended statement at the concrete counterexample input. -/
theorem c2_dispatch_failure_orphans_active_session_witness :
    (create_session_body envOK payloadDoc 0 0 0 "local-1" provDispatchFails []).2.2 =
      [] ++ [{ session_id := mkSessionId 0,
               room_name := generate_room_name "toothfairy" 0,
               status := "active" }] ∧
    Event.dbEndSession "sess_000000000000" ∉
      (create_session_body envOK payloadDoc 0 0 0 "local-1" provDispatchFails []).2.1 :=
  ⟨(c2_dispatch_failure_orphans_active_session envOK payloadDoc 0 0 0 "local-1"
      provDispatchFails [] "boom" rfl rfl).2.1,
   (c2_dispatch_failure_orphans_active_session envOK payloadDoc 0 0 0 "local-1"
      provDispatchFails [] "boom" rfl rfl).2.2 "sess_000000000000"⟩

/-- C3 counterexample: the client-visible error detail of a failed
`create_session` is not a generic message — it contains the underlying
provider error verbatim, contradicting the claim that the detail is
"recorded in logs only". -/
theorem c3_counterexample_detail_leaks_to_client :
    (create_session_body envOK payloadDoc 0 0 0 "local-1" provDispatchRejected []).1 =
      .error (.httpExc 500
        ("Failed to create session: 500: Failed to create agent dispatch: " ++
         "TwirpError= dispatch rejected")) ∧
    containsStr
      "Failed to create session: 500: Failed to create agent dispatch: TwirpError= dispatch rejected"
      "TwirpError= dispatch rejected" = true :=
  ⟨rfl, rfl⟩

/-- C3 (amended): on a dispatch (runtime) failure the caller's 500 response
detail is `"Failed to create session: ..."` with the underlying provider
error embedded in it — the detail is not kept to the logs, it always reaches
the client as a substring of the response detail. -/
theorem c3_client_message_contains_error_detail (env : Env) (payload : TokenPayload)
    (rr rp rs : Nat) (lid : String) (B : ProviderBehavior) (db : List SessionRecord)
    (e : String) (hv : validate_environment env = none)
    (hB : B.dispatchResult = .error e) :
    (create_session_body env payload rr rp rs lid B db).1 =
      .error (.httpExc 500 ("Failed to create session: " ++
        strOfErr (.httpExc 500 ("Failed to create agent dispatch: " ++ e)))) ∧
    containsStr ("Failed to create session: " ++
      strOfErr (.httpExc 500 ("Failed to create agent dispatch: " ++ e))) e = true := by
  have hd := dispatch_error_shape (generate_room_name "toothfairy" rr)
    (generate_participant_identity rp) (payload.email.getD "unknown")
    (env.livekit_api_key.getD "") (env.livekit_api_secret.getD "")
    (env.livekit_url.getD "")
    (some (env.livekit_agent_name.getD "toothfairy-dental-agent"))
    (some (pyDictStr (mkSessionId rs) payload.id (payload.email.getD "unknown")))
    env.livekit_agent_name lid B e hB
  constructor
  · simp [create_session_body, hv, db_create_session, hd]
  · have hsplit : "Failed to create session: " ++
        strOfErr (.httpExc 500 ("Failed to create agent dispatch: " ++ e)) =
        ("Failed to create session: " ++
          (toString (500 : Nat) ++ ": " ++ "Failed to create agent dispatch: ")) ++ e := by
      apply String.ext
      simp [strOfErr, String.data_append, List.append_assoc]
    rw [hsplit]
    exact containsStr_append_right _ e

/-- C3 witness: the amended statement at the concrete `boom` input. -/
theorem c3_client_message_contains_error_detail_witness :
    (create_session_body envOK payloadDoc 0 0 0 "local-1" provDispatchFails []).1 =
      .error (.httpExc 500 ("Failed to create session: " ++
        strOfErr (.httpExc 500 ("Failed to create agent dispatch: " ++ "boom")))) ∧
    containsStr ("Failed to create session: " ++
      strOfErr (.httpExc 500 ("Failed to create agent dispatch: " ++ "boom"))) "boom" = true :=
  c3_client_message_contains_error_detail envOK payloadDoc 0 0 0 "local-1"
    provDispatchFails [] "boom" rfl rfl

/-- C9: a two-run non-interference statement — changing the provider API
key/secret and the application signing secret, with everything else fixed,
leaves every field of a successful `create_session` response unchanged
except the media-join token itself; and that token is exactly the scoped
session token (room + identity grants) signed with the provider
credentials. The raw secrets therefore do not flow into any response
field; the only credential-derived value is the scoped token. -/
theorem c9_secrets_do_not_flow_into_response (env : Env) (payload : TokenPayload)
    (rr rp rs : Nat) (lid : String) (B : ProviderBehavior) (db : List SessionRecord)
    (k s j : String) (r1 r2 : SessionCreateResponse) (d1 d2 : ResponseData)
    (h1 : (create_session_body env payload rr rp rs lid B db).1 = .ok r1)
    (h2 : (create_session_body
      { env with livekit_api_key := some k, livekit_api_secret := some s,
                 jwt_secret_key := j } payload rr rp rs lid B db).1 = .ok r2)
    (hd1 : r1.data = some d1) (hd2 : r2.data = some d2) :
    d1.user_id = d2.user_id ∧ d1.user_email = d2.user_email ∧
    d1.session_id = d2.session_id ∧ d1.livekit_url = d2.livekit_url ∧
    d1.room_name = d2.room_name ∧
    d1.participant_identity = d2.participant_identity ∧
    d1.participant_name = d2.participant_name ∧
    d1.agent_name = d2.agent_name ∧ d1.dispatch_id = d2.dispatch_id ∧
    d1.access_token = { identity := d1.participant_identity,
                        displayName := some d1.user_email,
                        grants := sessionGrants d1.room_name,
                        api_key := env.livekit_api_key.getD "",
                        api_secret := env.livekit_api_secret.getD "" } := by
  obtain ⟨ack1, hB1, hr1⟩ := create_session_body_ok_shape env payload rr rp rs lid B db r1 h1
  obtain ⟨ack2, hB2, hr2⟩ := create_session_body_ok_shape _ payload rr rp rs lid B db r2 h2
  rw [hB1] at hB2
  injection hB2 with hack
  subst hack
  rw [hr1] at hd1
  rw [hr2] at hd2
  simp only [Option.some.injEq] at hd1 hd2
  subst hd1
  subst hd2
  exact ⟨rfl, rfl, rfl, rfl, rfl, rfl, rfl, rfl, rfl, rfl⟩

/-- C9 witness: the two concrete runs (original credentials vs `otherkey` /
`othersecret` / `otherjwt`) agree on every field except the token's signing
credentials. -/
theorem c9_secrets_do_not_flow_into_response_witness :
    (dataRun "APIkey123" "APIsecret456").user_id = (dataRun "otherkey" "othersecret").user_id ∧
    (dataRun "APIkey123" "APIsecret456").user_email = (dataRun "otherkey" "othersecret").user_email ∧
    (dataRun "APIkey123" "APIsecret456").session_id = (dataRun "otherkey" "othersecret").session_id ∧
    (dataRun "APIkey123" "APIsecret456").livekit_url = (dataRun "otherkey" "othersecret").livekit_url ∧
    (dataRun "APIkey123" "APIsecret456").room_name = (dataRun "otherkey" "othersecret").room_name ∧
    (dataRun "APIkey123" "APIsecret456").participant_identity
      = (dataRun "otherkey" "othersecret").participant_identity ∧
    (dataRun "APIkey123" "APIsecret456").participant_name
      = (dataRun "otherkey" "othersecret").participant_name ∧
    (dataRun "APIkey123" "APIsecret456").agent_name = (dataRun "otherkey" "othersecret").agent_name ∧
    (dataRun "APIkey123" "APIsecret456").dispatch_id = (dataRun "otherkey" "othersecret").dispatch_id ∧
    (dataRun "APIkey123" "APIsecret456").access_token =
      { identity := (dataRun "APIkey123" "APIsecret456").participant_identity,
        displayName := some (dataRun "APIkey123" "APIsecret456").user_email,
        grants := sessionGrants (dataRun "APIkey123" "APIsecret456").room_name,
        api_key := envOK.livekit_api_key.getD "",
        api_secret := envOK.livekit_api_secret.getD "" } :=
  c9_secrets_do_not_flow_into_response envOK payloadDoc 0 0 0 "local-1" provOK []
    "otherkey" "othersecret" "otherjwt"
    (respRun "APIkey123" "APIsecret456") (respRun "otherkey" "othersecret")
    (dataRun "APIkey123" "APIsecret456") (dataRun "otherkey" "othersecret")
    rfl rfl rfl rfl

end DentalClinic
